import Mathlib

/-!
# KnightDeliver backend — verification of the order/ride lifecycle engine

Shallow embedding of the KnightDeliver backend (Express + Prisma orders
router, Express + raw-pg rides/tracking/ratings routers, socket.io
real-time module) and proofs about its lifecycle, rating, tracking and
subscription operations.

Modelling conventions:
* Database rows become Lean structures; a table is a `List` of rows.
* Machine time (`Date.now()`, `CURRENT_TIMESTAMP`) is a `Nat` of epoch
  milliseconds, supplied as a parameter.
* SQL `DECIMAL` money/rating columns become `ℚ` (exact, as in Postgres).
* Status columns are `String`s, exactly the literals the code compares
  against (`'pending'`, `"PENDING"`, ...), since both routers store and
  compare raw strings.
* A SQL transaction (`BEGIN ... COMMIT`, `SELECT ... FOR UPDATE`, or a
  single conditional `UPDATE`) is one atomic Lean function from state to
  state: concurrent executions of such transactions on one row are
  serialized by the database's row lock, so any concurrent run equals
  some sequential run of the atomic functions.  Handlers that perform a
  read in one query and a write in a later query are instead modelled as
  multi-step programs whose steps interleave under a schedule.
* Fields whose value comes from `Math.random()` (estimated ride duration,
  estimated earnings decoration) are taken as parameters or omitted when
  no claim depends on them.
-/

/-- Order row of the Prisma `order` model as used by `src/routes/orders.ts`
(fields the router reads or writes). -/
structure POrder where
  id : String
  customerId : String
  delivererId : Option String
  status : String
  restaurant : String
  pickupLocation : String
  dropoffBuilding : String
  dropoffRoom : Option String
  notes : Option String
  estimatedTip : Option String
  createdAt : Nat
  pickedUpAt : Option Nat
  deliveredAt : Option Nat
deriving DecidableEq, Repr

/-- Ride row of the pg `rides` table (`src/db.ts` schema) as used by the
rides router. -/
structure Ride where
  id : String
  riderId : String
  driverId : Option String
  status : String
  pickupLocation : String
  dropoffLocation : String
  numPassengers : Nat
  specialInstructions : Option String
  estimatedDurationMinutes : Nat
  actualDurationMinutes : Option Nat
  rideFee : ℚ
  tip : ℚ
  cancelledReason : Option String
  cancelledBy : Option String
  createdAt : Nat
  acceptedAt : Option Nat
  startedAt : Option Nat
  completedAt : Option Nat
deriving DecidableEq, Repr

/-- Row of the pg `user_stats` table (the columns the rides router touches). -/
structure UserStats where
  totalRidesGiven : Nat
  totalEarnings : ℚ
deriving DecidableEq, Repr

/-- Errors surfaced by the rides router handlers. -/
inductive RideErr where
  /-- HTTP 404: `Ride not found or not assigned to you`. -/
  | notFound
  /-- HTTP 400: wrong-state rejection with the route's message. -/
  | wrongStatus (msg : String)
  /-- HTTP 403: `Not authorized to cancel this ride`. -/
  | forbidden (msg : String)
deriving DecidableEq, Repr

/-! ## Accept paths (claim C1)

`POST /api/rides/:rideId/accept` runs, inside one `transaction`, a
`SELECT * FROM rides WHERE id = $1 AND status = 'pending' FOR UPDATE`
followed by the `UPDATE` that assigns the driver.  The row lock makes the
check-and-write one atomic unit, modelled as `rideAcceptTx`. -/

/-- The accept transaction of `POST /:rideId/accept` (rides router):
confirm still `pending` under a row lock, then set driver, status and
`accepted_at` — a single atomic unit. -/
def rideAcceptTx (r : Ride) (driverId : String) (now : Nat) :
    Ride × Option RideErr :=
  if r.status = "pending" then
    ({ r with driverId := some driverId, status := "accepted",
              acceptedAt := some now }, none)
  else
    (r, some (.wrongStatus "Ride is no longer available"))

/-- The conditional update of `POST /:id/accept` (orders router):
`prisma.order.update({ where: { id, status: 'PENDING' }, data: { status:
'ACCEPTED', delivererId } })`.  The `where` clause makes the write
conditional on the row still being `PENDING`; a non-matching row makes the
update throw, surfaced as a failed attempt (`false`). -/
def orderAcceptUpdate (o : POrder) (userId : String) : POrder × Bool :=
  if o.status = "PENDING" then
    ({ o with status := "ACCEPTED", delivererId := some userId }, true)
  else
    (o, false)

/-- Serialized run of atomic order-accept attempts (the database serializes
the conditional updates on one row, so a concurrent run equals some
sequential run).  Returns the final row and the number of successes. -/
def runOrderAccepts : POrder → List String → POrder × Nat
  | o, [] => (o, 0)
  | o, u :: us =>
    let step := orderAcceptUpdate o u
    let rest := runOrderAccepts step.1 us
    (rest.1, (if step.2 then 1 else 0) + rest.2)

/-- Serialized run of atomic ride-accept transactions; each attempt is a
`(driverId, now)` pair.  Returns the final row and the number of successes. -/
def runRideAccepts : Ride → List (String × Nat) → Ride × Nat
  | r, [] => (r, 0)
  | r, a :: as_ =>
    let step := rideAcceptTx r a.1 a.2
    let rest := runRideAccepts step.1 as_
    (rest.1, (if step.2.isNone then 1 else 0) + rest.2)

/-! `POST /:id/accept-public` (orders router) is *not* atomic: it reads the
order with `findUnique`, checks `status !== 'PENDING'` in JS, and only then
issues an unconditional `update({ where: { id }, data: { status:
'ACCEPTED' } })` — a plain read followed by a separate write, with an
`await` suspension point between them.  We model each in-flight handler as
a two-step program and let steps of different handlers interleave. -/

/-- Program counter of one in-flight `accept-public` handler. -/
inductive PubPC where
  /-- Not yet performed its read. -/
  | start
  /-- Performed the `findUnique` read; `sawPending` records whether the
  observed status was `PENDING`. -/
  | checked (sawPending : Bool)
  /-- Responded; `success` is true for the 200 path, false for the
  `Order already taken` 400 path. -/
  | done (success : Bool)
deriving DecidableEq, Repr

/-- One step of an `accept-public` handler against the shared order row. -/
def pubAcceptStep (o : POrder) : PubPC → POrder × PubPC
  | .start => (o, .checked (o.status == "PENDING"))
  | .checked true => ({ o with status := "ACCEPTED" }, .done true)
  | .checked false => (o, .done false)
  | .done b => (o, .done b)

/-- Run a set of in-flight `accept-public` handlers under a schedule: each
schedule entry names the handler that performs its next step. -/
def runPubSched : POrder → List PubPC → List Nat → POrder × List PubPC
  | o, pcs, [] => (o, pcs)
  | o, pcs, i :: rest =>
    match pcs.get? i with
    | none => runPubSched o pcs rest
    | some pc =>
      let step := pubAcceptStep o pc
      runPubSched step.1 (pcs.set i step.2) rest

/-! ## Status transitions (claims C2, C8)

The rides router guards each transition with the assigned driver
(`WHERE id = $1 AND driver_id = $2`, else 404) and a predecessor-status
check (else 400), and writes only on success.  Each handler returns the
post-state row together with the error, so "row unchanged on failure" is
an actual equation. -/

/-- Route `POST /:rideId/arriving`: requires the caller to be the assigned
driver and status `accepted`; sets status `arriving`. -/
def rideArriving (r : Ride) (driverId : String) : Ride × Option RideErr :=
  if r.driverId ≠ some driverId then (r, some .notFound)
  else if r.status ≠ "accepted" then
    (r, some (.wrongStatus "Ride must be in accepted status"))
  else ({ r with status := "arriving" }, none)

/-- Route `POST /:rideId/start`: requires the assigned driver and status
`accepted` or `arriving`; sets status `in_progress` and `started_at`. -/
def rideStart (r : Ride) (driverId : String) (now : Nat) :
    Ride × Option RideErr :=
  if r.driverId ≠ some driverId then (r, some .notFound)
  else if ¬ (r.status = "accepted" ∨ r.status = "arriving") then
    (r, some (.wrongStatus "Cannot start ride from current status"))
  else ({ r with status := "in_progress", startedAt := some now }, none)

/-- The effective fee credited on completion:
`parseFloat(ride.ride_fee) || 3`.  The `ride_fee` DECIMAL column always
parses, so the `|| 3` fallback fires exactly when the stored fee is `0`
(the schema default, and the only value the insert path ever leaves). -/
def completionFee (r : Ride) : ℚ :=
  if r.rideFee = 0 then 3 else r.rideFee

/-- Actual duration computed by the complete handler:
`Math.round((Date.now() - started_at) / 60000)` when `started_at` is set
(`Math.round x = ⌊x + 1/2⌋` for the non-negative values arising here),
else the stored estimate. -/
def completionDuration (r : Ride) (now : Nat) : Nat :=
  match r.startedAt with
  | some s => (now - s + 30000) / 60000
  | none => r.estimatedDurationMinutes

/-- Route `POST /:rideId/complete`: requires the assigned driver and status
`in_progress`; inside one transaction sets status `completed`,
`completed_at` and `actual_duration_minutes`, and increments the driver's
`total_rides_given` and `total_earnings` — modelled as a single atomic
function on the (ride, stats) pair. -/
def rideComplete (r : Ride) (stats : UserStats) (driverId : String)
    (now : Nat) : (Ride × UserStats) × Option RideErr :=
  if r.driverId ≠ some driverId then ((r, stats), some .notFound)
  else if r.status ≠ "in_progress" then
    ((r, stats), some (.wrongStatus "Ride must be in progress to complete"))
  else
    (({ r with status := "completed", completedAt := some now,
               actualDurationMinutes := some (completionDuration r now) },
      { stats with totalRidesGiven := stats.totalRidesGiven + 1,
                   totalEarnings := stats.totalEarnings + completionFee r }),
     none)

/-- Route `DELETE /:rideId` (cancel): requires the caller to be rider or driver,
rejects terminal statuses, else sets status `cancelled` with reason and
actor. -/
def rideCancel (r : Ride) (userId : String) (reason : Option String) :
    Ride × Option RideErr :=
  if r.riderId ≠ userId ∧ r.driverId ≠ some userId then
    (r, some (.forbidden "Not authorized to cancel this ride"))
  else if r.status = "completed" ∨ r.status = "cancelled" then
    (r, some (.wrongStatus "Cannot cancel completed or already cancelled ride"))
  else
    ({ r with status := "cancelled",
              cancelledReason := some (reason.getD "No reason provided"),
              cancelledBy := some userId }, none)

set_option linter.unusedVariables false in
/-- Route `POST /:id/status` (orders router): an *unconditional*
`prisma.order.update` that writes whatever status string the body carries,
setting `pickedUpAt` on every `PICKED_UP` post and `deliveredAt` on every
`DELIVERED` post.  The route runs behind `authMiddleware` but never
consults `callerId`: there is no predecessor check and no party check. -/
def orderStatusHandler (o : POrder) (callerId : String) (status : String)
    (now : Nat) : POrder :=
  { o with status := status,
           pickedUpAt := if status = "PICKED_UP" then some now else o.pickedUpAt,
           deliveredAt := if status = "DELIVERED" then some now else o.deliveredAt }

/-! ## Creation (claim C3) -/

/-- Body of `POST /api/orders` after zod validation. -/
structure NewOrderInput where
  restaurant : String
  pickupLocation : String
  dropoffBuilding : String
  dropoffRoom : Option String
  notes : Option String
  estimatedTip : Option String
deriving DecidableEq, Repr

/-- Route `POST /` (orders router): creates the order for the authenticated
user unconditionally — there is no check for an existing active order.
The Prisma model defaults the status to `PENDING` (the router's initial
tracking row and the `available` query both use `PENDING`). -/
def createOrder (orders : List POrder) (userId : String)
    (inp : NewOrderInput) (newId : String) (now : Nat) :
    List POrder × POrder :=
  let o : POrder :=
    { id := newId, customerId := userId, delivererId := none,
      status := "PENDING", restaurant := inp.restaurant,
      pickupLocation := inp.pickupLocation,
      dropoffBuilding := inp.dropoffBuilding,
      dropoffRoom := inp.dropoffRoom, notes := inp.notes,
      estimatedTip := inp.estimatedTip, createdAt := now,
      pickedUpAt := none, deliveredAt := none }
  (orders ++ [o], o)

/-- The rides router's active-ride statuses:
`status IN ('pending', 'accepted', 'arriving', 'in_progress')`. -/
def rideActive (r : Ride) : Bool :=
  r.status == "pending" || r.status == "accepted" ||
  r.status == "arriving" || r.status == "in_progress"

/-- Body of `POST /api/rides` after validation. -/
structure NewRideInput where
  pickupLocation : String
  dropoffLocation : String
  numPassengers : Nat
  specialInstructions : Option String
deriving DecidableEq, Repr

/-- Route `POST /` (rides router): rejects with a 400 active-ride error when the
rider already has a ride in a non-terminal, non-cancelled status, else
inserts a new `pending` ride.  `estimatedDuration` is the handler's
random 5–15 minute estimate, passed as a parameter. -/
def createRide (rides : List Ride) (riderId : String) (inp : NewRideInput)
    (newId : String) (now estimatedDuration : Nat) :
    Except String (List Ride × Ride) :=
  if rides.any (fun r => r.riderId == riderId && rideActive r) then
    .error "You already have an active ride request"
  else
    let r : Ride :=
      { id := newId, riderId := riderId, driverId := none,
        status := "pending", pickupLocation := inp.pickupLocation,
        dropoffLocation := inp.dropoffLocation,
        numPassengers := inp.numPassengers,
        specialInstructions := inp.specialInstructions,
        estimatedDurationMinutes := estimatedDuration,
        actualDurationMinutes := none, rideFee := 0, tip := 0,
        cancelledReason := none, cancelledBy := none, createdAt := now,
        acceptedAt := none, startedAt := none, completedAt := none }
    .ok (rides ++ [r], r)

/-! ## Ride operations as a step system (claim C8) -/

/-- A lifecycle operation on one ride, as exposed by the rides router. -/
inductive RideOp where
  | accept (driverId : String) (now : Nat)
  | arriving (driverId : String)
  | start (driverId : String) (now : Nat)
  | complete (driverId : String) (now : Nat)
  | cancel (userId : String) (reason : Option String)
deriving DecidableEq, Repr

/-- Post-state of the ride row after one router operation (the row is
unchanged whenever the handler rejects). -/
def rideStep (r : Ride) : RideOp → Ride
  | .accept d now => (rideAcceptTx r d now).1
  | .arriving d => (rideArriving r d).1
  | .start d now => (rideStart r d now).1
  | .complete d now => (rideComplete r ⟨0, 0⟩ d now).1.1
  | .cancel u reason => (rideCancel r u reason).1

/-- Relation between a ride's lifecycle timestamps and its status that
holds for every ride reachable through the router (a fresh ride has no
timestamps and status `pending`). -/
def rideTsInv (r : Ride) : Prop :=
  (r.acceptedAt.isSome → r.status ≠ "pending") ∧
  (r.startedAt.isSome →
    r.status = "in_progress" ∨ r.status = "completed" ∨ r.status = "cancelled") ∧
  (r.completedAt.isSome → r.status = "completed")

instance (r : Ride) : Decidable (rideTsInv r) := by
  unfold rideTsInv; infer_instance

/-! ## Available listings (claim C6)

Stable insertion sorts model the SQL `ORDER BY`. -/

/-- Insert a ride into a list sorted ascending by `created_at` (stable). -/
def insertRideAsc (r : Ride) : List Ride → List Ride
  | [] => [r]
  | x :: xs =>
    if r.createdAt < x.createdAt then r :: x :: xs
    else x :: insertRideAsc r xs

/-- Sort rides ascending by `created_at` (`ORDER BY created_at ASC`). -/
def sortRidesAsc : List Ride → List Ride
  | [] => []
  | x :: xs => insertRideAsc x (sortRidesAsc xs)

/-- Insert an order into a list sorted descending by `createdAt` (stable). -/
def insertOrderDesc (o : POrder) : List POrder → List POrder
  | [] => [o]
  | x :: xs =>
    if o.createdAt > x.createdAt then o :: x :: xs
    else x :: insertOrderDesc o xs

/-- Sort orders descending by `createdAt` (`orderBy: { createdAt: 'desc' }`). -/
def sortOrdersDesc : List POrder → List POrder
  | [] => []
  | x :: xs => insertOrderDesc x (sortOrdersDesc xs)

/-- Urgency annotation of the rides listing: `high` above 10 minutes of
wait, `medium` above 5, else `low` (strict thresholds; the float division
`waitMs / 60000 > k` is equivalent to the exact `waitMs > k * 60000`). -/
def urgencyOf (waitMs : Nat) : String :=
  if waitMs > 10 * 60000 then "high"
  else if waitMs > 5 * 60000 then "medium"
  else "low"

/-- Entry of the rides `GET /available` response (the random
`estimatedEarnings` decoration is omitted; no claim concerns it). -/
structure AvailRide where
  ride : Ride
  urgency : String
deriving DecidableEq, Repr

/-- Route `GET /available` (rides router): pending rides not requested by the
caller, oldest first, at most 20, each annotated with its urgency tier. -/
def ridesAvailable (rides : List Ride) (driverId : String) (now : Nat) :
    List AvailRide :=
  ((sortRidesAsc (rides.filter
      (fun r => r.status == "pending" && r.riderId != driverId))).take 20).map
    (fun r => ⟨r, urgencyOf (now - r.createdAt)⟩)

/-- Route `GET /available` (orders router): *all* `PENDING` orders — the caller
is authenticated but not excluded — ordered `createdAt` *descending*,
with no urgency annotation. -/
def ordersAvailable (orders : List POrder) : List POrder :=
  sortOrdersDesc (orders.filter (fun o => o.status == "PENDING"))

/-! ## Ratings (claim C5) -/

/-- Order row of the pg `orders` table (the columns the ratings and
tracking routers read). -/
structure PgOrder where
  id : String
  customerId : String
  delivererId : Option String
  status : String
deriving DecidableEq, Repr

/-- Row of the pg `ratings` table. -/
structure RatingRow where
  orderId : String
  raterId : String
  ratedUserId : String
  score : Nat
  comment : Option String
  ratingType : String
deriving DecidableEq, Repr

/-- User columns the pg ratings route updates. -/
structure PgUser where
  id : String
  avgRating : ℚ
  totalRatings : Nat
deriving DecidableEq, Repr

/-- Errors of `POST /api/ratings/order/:orderId`. -/
inductive RateErr where
  | notFound
  | notDelivered
  | noDeliverer
  | notParty
  | alreadyRated
deriving DecidableEq, Repr

/-- The SQL `AVG(rating) FROM ratings WHERE rated_user_id = $1` as an exact
rational (the route only evaluates it after inserting, so the filtered
set is nonempty there).  The `avg_rating DECIMAL(3, 2)` column would
round this value to two decimals on storage; the model keeps the exact
rational the query computes. -/
def ratingsAvg (ratings : List RatingRow) (ratedUserId : String) : ℚ :=
  let rs := ratings.filter (fun x => x.ratedUserId == ratedUserId)
  (rs.map (fun x => (x.score : ℚ))).sum / (rs.length : ℚ)

/-- Transactional tail of the pg rating route: duplicate check on the
`(order, rater, rated)` triple, then insert the rating and recompute the
rated user's stored average and count from the *full* rating set. -/
def rateInsert (ratings : List RatingRow) (users : List PgUser)
    (orderId raterId ratedUserId : String) (score : Nat)
    (comment : Option String) (rtype : String) :
    (List RatingRow × List PgUser) × Option RateErr :=
  if ratings.any (fun x =>
      x.orderId == orderId && x.raterId == raterId &&
      x.ratedUserId == ratedUserId) then
    ((ratings, users), some .alreadyRated)
  else
    let ratings' := ratings ++ [⟨orderId, raterId, ratedUserId, score, comment, rtype⟩]
    let avg := ratingsAvg ratings' ratedUserId
    let cnt := (ratings'.filter (fun x => x.ratedUserId == ratedUserId)).length
    let users' := users.map (fun u =>
      if u.id == ratedUserId then { u with avgRating := avg, totalRatings := cnt }
      else u)
    ((ratings', users'), none)

/-- Route `POST /order/:orderId` (pg ratings router): load the order, require
status `delivered`, resolve the rated party from the caller's role,
reject duplicates, then insert and recompute inside one transaction. -/
def rateOrder (orders : List PgOrder) (ratings : List RatingRow)
    (users : List PgUser) (orderId raterId : String) (score : Nat)
    (comment : Option String) :
    (List RatingRow × List PgUser) × Option RateErr :=
  match orders.find? (fun o => o.id == orderId) with
  | none => ((ratings, users), some .notFound)
  | some o =>
    if o.status ≠ "delivered" then ((ratings, users), some .notDelivered)
    else if o.customerId = raterId then
      match o.delivererId with
      | none => ((ratings, users), some .noDeliverer)
      | some dl =>
        rateInsert ratings users orderId raterId dl score comment
          "customer_to_deliverer"
    else if o.delivererId = some raterId then
      rateInsert ratings users orderId raterId o.customerId score comment
        "deliverer_to_customer"
    else ((ratings, users), some .notParty)

/-- Rating row of the Prisma `rating` model used by `POST /rate`. -/
structure PRating where
  score : Nat
  comment : Option String
  raterId : String
  rateeId : String
  orderId : Option String
  rideId : Option String
deriving DecidableEq, Repr

/-- User columns the Prisma `/rate` route updates. -/
structure PUser where
  id : String
  delivererRating : ℚ
deriving DecidableEq, Repr

/-- JavaScript `Math.round(x * 10) / 10` for the non-negative averages arising here. -/
def jsRound1 (q : ℚ) : ℚ := (⌊q * 10 + 1/2⌋ : ℚ) / 10

/-- Route `POST /rate` (Prisma users router): creates the rating with *no*
duplicate check and no transaction, then recomputes the ratee's
`delivererRating` as the one-decimal rounding of the mean over all of the
ratee's ratings.  It never fails. -/
def rateDirect (pratings : List PRating) (users : List PUser)
    (userId rateeId : String) (score : Nat) (comment : Option String)
    (orderId rideId : Option String) : List PRating × List PUser :=
  let pratings' := pratings ++ [⟨score, comment, userId, rateeId, orderId, rideId⟩]
  let rs := (pratings'.filter (fun x => x.rateeId == rateeId)).map
    (fun x => (x.score : ℚ))
  let avg := rs.sum / (rs.length : ℚ)
  let users' := users.map (fun u =>
    if u.id == rateeId then { u with delivererRating := jsRound1 avg } else u)
  (pratings', users')

/-! ## Location channel (claim C9) -/

/-- Row of the pg `location_updates` table. -/
structure LocationUpdate where
  orderId : String
  userId : String
  latitude : ℚ
  longitude : ℚ
  accuracy : Option ℚ
  createdAt : Nat
deriving DecidableEq, Repr

/-- Insert a location into a list sorted descending by `created_at`. -/
def insertLocDesc (l : LocationUpdate) : List LocationUpdate → List LocationUpdate
  | [] => [l]
  | x :: xs =>
    if l.createdAt > x.createdAt then l :: x :: xs
    else x :: insertLocDesc l xs

/-- Sort locations descending by `created_at` (`ORDER BY created_at DESC`). -/
def sortLocsDesc : List LocationUpdate → List LocationUpdate
  | [] => []
  | x :: xs => insertLocDesc x (sortLocsDesc xs)

/-- The tracking router's authorization read:
`SELECT * FROM orders WHERE id = $1 AND (customer_id = $2 OR deliverer_id = $2)`. -/
def findAuthorizedOrder (orders : List PgOrder) (orderId userId : String) :
    Option PgOrder :=
  orders.find? (fun o =>
    o.id == orderId && (o.customerId == userId || o.delivererId == some userId))

/-- Responses of the tracking read endpoints. -/
inductive TrackResp where
  /-- HTTP 403 with the route's message; carries no location data. -/
  | forbidden (msg : String)
  | okLocation (loc : Option LocationUpdate) (orderStatus : String)
  | okHistory (locs : List LocationUpdate) (orderStatus : String)
deriving DecidableEq, Repr

/-- Route `GET /order/:orderId/location`: caller must be a party, else 403;
returns the most recent sample (if any) and the order status. -/
def getLatestLocation (orders : List PgOrder) (locs : List LocationUpdate)
    (userId orderId : String) : TrackResp :=
  match findAuthorizedOrder orders orderId userId with
  | none => .forbidden "Not authorized to view this order"
  | some o =>
    .okLocation ((sortLocsDesc (locs.filter (fun l => l.orderId == orderId))).head?)
      o.status

/-- Route `GET /order/:orderId/history`: caller must be a party, else 403;
returns the most-recent-first samples, bounded by `limit`. -/
def getLocationHistory (orders : List PgOrder) (locs : List LocationUpdate)
    (userId orderId : String) (limit : Nat) : TrackResp :=
  match findAuthorizedOrder orders orderId userId with
  | none => .forbidden "Not authorized to view this order"
  | some o =>
    .okHistory ((sortLocsDesc (locs.filter (fun l => l.orderId == orderId))).take limit)
      o.status

/-! ## Socket subscriptions (claims C7, C10) -/

/-- Connection-scoped socket state: the optional authenticated user and
the joined rooms (topic memberships). -/
structure SocketCtx where
  userId : Option String
  rooms : List String
deriving DecidableEq, Repr

/-- Events a subscribe handler can emit back to the connection. -/
inductive SockEvent where
  | subscribed (orderId : String)
  | subscribedRide (rideId : String)
  | errorMsg (message : String)
deriving DecidableEq, Repr

/-- The `subscribe_order` socket handler: a falsy (empty) id returns
silently; an unauthenticated connection falls through the
`if (socket.userId)` guard silently; an authenticated user joins
`order:<id>` only when a row makes them customer or deliverer of the
order, and otherwise gets an `error` event with no membership change. -/
def subscribeOrder (orders : List PgOrder) (sock : SocketCtx)
    (orderId : String) : SocketCtx × List SockEvent :=
  if orderId = "" then (sock, [])
  else
    match sock.userId with
    | none => (sock, [])
    | some uid =>
      if orders.any (fun o =>
          o.id == orderId && (o.customerId == uid || o.delivererId == some uid)) then
        ({ sock with rooms := sock.rooms ++ ["order:" ++ orderId] },
         [.subscribed orderId])
      else
        (sock, [.errorMsg "Not authorized to view this order"])

/-- The `subscribe_ride` socket handler, same shape over the `rides`
table with rider/driver as the parties. -/
def subscribeRide (rides : List Ride) (sock : SocketCtx)
    (rideId : String) : SocketCtx × List SockEvent :=
  if rideId = "" then (sock, [])
  else
    match sock.userId with
    | none => (sock, [])
    | some uid =>
      if rides.any (fun r =>
          r.id == rideId && (r.riderId == uid || r.driverId == some uid)) then
        ({ sock with rooms := sock.rooms ++ ["ride:" ++ rideId] },
         [.subscribedRide rideId])
      else
        (sock, [.errorMsg "Not authorized to view this ride"])

/-! # Claims -/

/-! ## C1 — accept exclusivity -/

/-- Once an order has left `PENDING`, every atomic accept attempt fails
and leaves the row unchanged. -/
theorem runOrderAccepts_of_not_pending (o : POrder) (us : List String)
    (h : o.status ≠ "PENDING") : runOrderAccepts o us = (o, 0) := by
  induction us with
  | nil => rfl
  | cons u us ih => simp [runOrderAccepts, orderAcceptUpdate, h, ih]

/-- Once a ride has left `pending`, every accept transaction fails and
leaves the row unchanged. -/
theorem runRideAccepts_of_not_pending (r : Ride) (ds : List (String × Nat))
    (h : r.status ≠ "pending") : runRideAccepts r ds = (r, 0) := by
  induction ds with
  | nil => rfl
  | cons a ds ih => simp [runRideAccepts, rideAcceptTx, h, ih]

/-- C1 (amended): of N serialized attempts through the atomic accept
paths — the rides accept transaction (`SELECT ... FOR UPDATE` + update)
and the orders conditional update (`where: { id, status: 'PENDING' }`) —
on a still-pending row, exactly the first succeeds, becomes the assignee,
and moves the status to accepted; the N−1 later attempts all fail with
the no-longer-available rejection.  (The `accept-public` route is excluded:
it is a plain read followed by a separate write, see the counterexample.) -/
theorem C1_atomic_accept_exclusive
    (o : POrder) (u : String) (us : List String)
    (r : Ride) (d : String) (n : Nat) (ds : List (String × Nat))
    (ho : o.status = "PENDING") (hr : r.status = "pending") :
    (runOrderAccepts o (u :: us)).2 = 1 ∧
    (runOrderAccepts o (u :: us)).1.delivererId = some u ∧
    (runOrderAccepts o (u :: us)).1.status = "ACCEPTED" ∧
    (runRideAccepts r ((d, n) :: ds)).2 = 1 ∧
    (runRideAccepts r ((d, n) :: ds)).1.driverId = some d ∧
    (runRideAccepts r ((d, n) :: ds)).1.status = "accepted" ∧
    (runRideAccepts r ((d, n) :: ds)).1.acceptedAt = some n := by
  have hs1 : runOrderAccepts { o with status := "ACCEPTED", delivererId := some u } us =
      ({ o with status := "ACCEPTED", delivererId := some u }, 0) :=
    runOrderAccepts_of_not_pending _ us (by simp)
  have hs2 : runRideAccepts
      { r with driverId := some d, status := "accepted", acceptedAt := some n } ds =
      ({ r with driverId := some d, status := "accepted", acceptedAt := some n }, 0) :=
    runRideAccepts_of_not_pending _ ds (by simp)
  have h1 : runOrderAccepts o (u :: us) =
      ({ o with status := "ACCEPTED", delivererId := some u }, 1) := by
    simp [runOrderAccepts, orderAcceptUpdate, ho, hs1]
  have h2 : runRideAccepts r ((d, n) :: ds) =
      ({ r with driverId := some d, status := "accepted", acceptedAt := some n }, 1) := by
    simp [runRideAccepts, rideAcceptTx, hr, hs2]
  rw [h1, h2]
  exact ⟨rfl, rfl, rfl, rfl, rfl, rfl, rfl⟩

/-- C1 (witness): concrete instance of the exclusivity theorem. -/
theorem C1_atomic_accept_exclusive_witness :
    (runOrderAccepts
        ⟨"o2", "c", none, "PENDING", "r", "p", "b", none, none, none, 0, none, none⟩
        ["u2", "u3", "u4"]).2 = 1 :=
  (C1_atomic_accept_exclusive _ "u2" ["u3", "u4"]
    ⟨"r9", "u9", none, "pending", "a", "b", 1, none, 5, none, 0, 0, none, none,
      0, none, none, none⟩
    "d7" 11 [("d8", 12)] rfl rfl).1

/-- C1 (counterexample): the `accept-public` route is a plain read
followed by a separate write.  Under the interleaving read₁ read₂ write₁
write₂, two concurrent public accepts of the same `PENDING` order both
respond success — not exactly one — and no assignee is ever set. -/
theorem C1_public_accept_race_counterexample :
    (runPubSched
        ⟨"o1", "c", none, "PENDING", "r", "p", "b", none, none, none, 0, none, none⟩
        [.start, .start] [0, 1, 0, 1]).2 = [.done true, .done true] ∧
    (runPubSched
        ⟨"o1", "c", none, "PENDING", "r", "p", "b", none, none, none, 0, none, none⟩
        [.start, .start] [0, 1, 0, 1]).1.delivererId = none := by
  decide

/-! ## C2 — guarded status transitions -/

/-- C2 (amended): the ride-variant transition handlers (`arriving`,
`start`, `complete`) fail exactly when the caller is not the assigned
driver or the current status is not a legal predecessor of the target,
and on failure leave the row (and stats) completely unchanged.  The
order-variant `POST /:id/status`, in contrast, applies whatever status
the body carries, from any current status, for any authenticated caller:
it has no predecessor check and no party check. -/
theorem C2_transition_guards (r : Ride) (stats : UserStats) (o : POrder)
    (d callerId target : String) (now : Nat) :
    ((rideArriving r d).2.isSome ↔
      ¬(r.driverId = some d ∧ r.status = "accepted")) ∧
    ((rideArriving r d).2.isSome → (rideArriving r d).1 = r) ∧
    ((rideStart r d now).2.isSome ↔
      ¬(r.driverId = some d ∧ (r.status = "accepted" ∨ r.status = "arriving"))) ∧
    ((rideStart r d now).2.isSome → (rideStart r d now).1 = r) ∧
    ((rideComplete r stats d now).2.isSome ↔
      ¬(r.driverId = some d ∧ r.status = "in_progress")) ∧
    ((rideComplete r stats d now).2.isSome →
      (rideComplete r stats d now).1 = (r, stats)) ∧
    (orderStatusHandler o callerId target now).status = target := by
  refine ⟨?_, ?_, ?_, ?_, ?_, ?_, rfl⟩ <;>
    · simp only [rideArriving, rideStart, rideComplete]
      split_ifs <;> simp_all

/-- C2 (witness): concrete instance — a driver other than the assignee
cannot advance, and advancing `arriving` from `completed` fails, both
leaving the row unchanged. -/
theorem C2_transition_guards_witness :
    ((rideArriving
        ⟨"r1", "u1", some "d1", "completed", "a", "b", 1, none, 5, none, 0, 0,
          none, none, 0, some 1, some 2, some 3⟩ "d1").2.isSome ↔
      ¬((⟨"r1", "u1", some "d1", "completed", "a", "b", 1, none, 5, none, 0, 0,
          none, none, 0, some 1, some 2, some 3⟩ : Ride).driverId = some "d1" ∧
        (⟨"r1", "u1", some "d1", "completed", "a", "b", 1, none, 5, none, 0, 0,
          none, none, 0, some 1, some 2, some 3⟩ : Ride).status = "accepted")) :=
  (C2_transition_guards
    ⟨"r1", "u1", some "d1", "completed", "a", "b", 1, none, 5, none, 0, 0,
      none, none, 0, some 1, some 2, some 3⟩
    ⟨0, 0⟩
    ⟨"o1", "c", none, "PENDING", "r", "p", "b", none, none, none, 0, none, none⟩
    "d1" "x" "PICKED_UP" 9).1

/-- C2 (counterexample): the order-variant status route performs an
illegal transition with no error and mutates the row: posting
`PICKED_UP` against a `DELIVERED` order — by a caller who is neither
customer nor deliverer — succeeds and rewrites status and `pickedUpAt`. -/
theorem C2_unchecked_status_counterexample :
    (orderStatusHandler
        ⟨"o1", "cust", some "del", "DELIVERED", "r", "p", "b", none, none, none,
          0, some 10, some 20⟩ "someone-else" "PICKED_UP" 99).status = "PICKED_UP" ∧
    (orderStatusHandler
        ⟨"o1", "cust", some "del", "DELIVERED", "r", "p", "b", none, none, none,
          0, some 10, some 20⟩ "someone-else" "PICKED_UP" 99).pickedUpAt = some 99 ∧
    ("someone-else" ≠ "cust" ∧ ("someone-else" : String) ≠ "del") := by
  decide

/-! ## C3 — one active engagement per requester -/

/-- C3 (amended): ride creation rejects a rider who already has a ride in
a non-terminal, non-cancelled status, creating nothing; order creation
performs no active-engagement check at all: it always appends a fresh
`PENDING` order for the requester, whatever they already have. -/
theorem C3_active_engagement_check
    (rides : List Ride) (riderId : String) (inp : NewRideInput)
    (newId : String) (now ed : Nat)
    (orders : List POrder) (userId : String) (oin : NewOrderInput)
    (oid : String) (t : Nat)
    (h : (rides.any fun r => r.riderId == riderId && rideActive r) = true) :
    createRide rides riderId inp newId now ed =
      .error "You already have an active ride request" ∧
    (createOrder orders userId oin oid t).1 =
      orders ++ [(createOrder orders userId oin oid t).2] ∧
    (createOrder orders userId oin oid t).2.status = "PENDING" ∧
    (createOrder orders userId oin oid t).2.customerId = userId := by
  refine ⟨?_, rfl, rfl, rfl⟩
  simp only [createRide, h, if_true]

/-- C3 (witness): concrete instance — a rider with a `pending` ride is
rejected. -/
theorem C3_active_engagement_check_witness :
    createRide
      [⟨"r1", "u1", none, "pending", "a", "b", 1, none, 5, none, 0, 0, none,
         none, 0, none, none, none⟩]
      "u1" ⟨"a2", "b2", 1, none⟩ "r2" 9 7 =
      .error "You already have an active ride request" :=
  (C3_active_engagement_check _ "u1" ⟨"a2", "b2", 1, none⟩ "r2" 9 7
    [] "u9" ⟨"R", "P", "B", none, none, none⟩ "o9" 4 (by decide)).1

/-- C3 (counterexample): a user who already has an `ACCEPTED` (active)
order creates a second order through `POST /api/orders` and the request
succeeds — the handler performs no active-engagement check. -/
theorem C3_order_create_counterexample :
    (createOrder
        [⟨"o1", "u1", some "d1", "ACCEPTED", "R", "P", "B", none, none, none,
           0, none, none⟩]
        "u1" ⟨"R2", "P2", "B2", none, none, none⟩ "o2" 5).1.length = 2 ∧
    (createOrder
        [⟨"o1", "u1", some "d1", "ACCEPTED", "R", "P", "B", none, none, none,
           0, none, none⟩]
        "u1" ⟨"R2", "P2", "B2", none, none, none⟩ "o2" 5).2.customerId = "u1" ∧
    (createOrder
        [⟨"o1", "u1", some "d1", "ACCEPTED", "R", "P", "B", none, none, none,
           0, none, none⟩]
        "u1" ⟨"R2", "P2", "B2", none, none, none⟩ "o2" 5).2.status = "PENDING" := by
  decide

/-! ## C4 — completion: exactly once, atomically credited -/

/-- C4 (amended): a successful ride completion atomically (one
transaction, one state-to-state step) sets the terminal status, the
completion timestamp and the duration computed from the recorded
timestamps, and credits the driver's cumulative earnings with the
completion fee — the stored fee when it is nonzero, the fallback `3`
when the stored fee is `0` (`parseFloat(ride.ride_fee) || 3`); a second
completion attempt on the completed row always fails and changes
nothing. -/
theorem C4_complete_exactly_once (r : Ride) (stats : UserStats)
    (d : String) (now : Nat)
    (hok : (rideComplete r stats d now).2 = none) :
    (rideComplete r stats d now).1.1.status = "completed" ∧
    (rideComplete r stats d now).1.1.completedAt = some now ∧
    (rideComplete r stats d now).1.1.actualDurationMinutes =
      some (completionDuration r now) ∧
    (rideComplete r stats d now).1.2.totalEarnings =
      stats.totalEarnings + completionFee r ∧
    (rideComplete r stats d now).1.2.totalRidesGiven =
      stats.totalRidesGiven + 1 ∧
    (∀ stats' d' now',
      (rideComplete (rideComplete r stats d now).1.1 stats' d' now').2.isSome ∧
      (rideComplete (rideComplete r stats d now).1.1 stats' d' now').1 =
        ((rideComplete r stats d now).1.1, stats')) := by
  simp only [rideComplete] at hok ⊢
  split_ifs at hok
  all_goals simp_all
  intros
  split_ifs
  all_goals simp_all

/-- C4 (witness): concrete instance — completing an `in_progress` ride
with stored fee 0 succeeds and is not repeatable. -/
theorem C4_complete_exactly_once_witness :
    (rideComplete
        (rideComplete
          ⟨"r1", "u1", some "d1", "in_progress", "a", "b", 1, none, 7, none, 0,
            0, none, none, 0, some 1, some 2, none⟩
          ⟨0, 0⟩ "d1" 60000).1.1
        ⟨0, 0⟩ "d1" 120000).2.isSome :=
  ((C4_complete_exactly_once
      ⟨"r1", "u1", some "d1", "in_progress", "a", "b", 1, none, 7, none, 0,
        0, none, none, 0, some 1, some 2, none⟩
      ⟨0, 0⟩ "d1" 60000 (by simp [rideComplete])).2.2.2.2.2 ⟨0, 0⟩ "d1" 120000).1

/-- C4 (counterexample): the credit is not always "exactly the order's
fee": a ride whose stored `ride_fee` is `0` — the schema default, and the
only value the ride-creation path ever writes — is completed successfully
and the driver's earnings counter is credited `3`, not `0`. -/
theorem C4_zero_fee_counterexample :
    (⟨"r1", "u1", some "d1", "in_progress", "a", "b", 1, none, 7, none, 0, 0,
       none, none, 0, some 1, some 2, none⟩ : Ride).rideFee = 0 ∧
    (rideComplete
        ⟨"r1", "u1", some "d1", "in_progress", "a", "b", 1, none, 7, none, 0,
          0, none, none, 0, some 1, some 2, none⟩
        ⟨0, 0⟩ "d1" 60000).2 = none ∧
    (rideComplete
        ⟨"r1", "u1", some "d1", "in_progress", "a", "b", 1, none, 7, none, 0,
          0, none, none, 0, some 1, some 2, none⟩
        ⟨0, 0⟩ "d1" 60000).1.2.totalEarnings = 3 := by
  refine ⟨rfl, by decide, ?_⟩
  norm_num [rideComplete, completionFee]

/-! ## C5 — rating uniqueness and full recomputation -/

/-- C5 (amended): on the pg route `POST /api/ratings/order/:orderId`, in
*both* rating directions — the customer rating the deliverer and the
deliverer rating the customer, as resolved by the route from the
caller's role on the order — a second rating by the same rater of the
same party on the same order is rejected with the already-rated conflict
and changes nothing, while a fresh rating is inserted and the rated
user's stored average and count are recomputed — inside the same
transaction — from the full set of that user's ratings.  The Prisma
route `POST /rate`, in contrast, performs no duplicate check at all (see
the counterexample), so only the pg route honours the uniqueness
guarantee.  (`hparty` enumerates exactly the route's party resolution:
its first disjunct is the `customer_id = rater` branch, its second the
`deliverer_id = rater` branch.) -/
theorem C5_rating_unique_and_recomputed
    (orders : List PgOrder) (ratings : List RatingRow) (users : List PgUser)
    (orderId raterId rated rtype : String) (score : Nat)
    (comment : Option String) (o : PgOrder)
    (hfind : orders.find? (fun x => x.id == orderId) = some o)
    (hst : o.status = "delivered")
    (hparty :
      (o.customerId = raterId ∧ o.delivererId = some rated ∧
        rtype = "customer_to_deliverer") ∨
      (o.customerId ≠ raterId ∧ o.delivererId = some raterId ∧
        rated = o.customerId ∧ rtype = "deliverer_to_customer")) :
    ((ratings.any fun x => x.orderId == orderId && x.raterId == raterId &&
        x.ratedUserId == rated) = true →
      rateOrder orders ratings users orderId raterId score comment =
        ((ratings, users), some .alreadyRated)) ∧
    ((ratings.any fun x => x.orderId == orderId && x.raterId == raterId &&
        x.ratedUserId == rated) = false →
      (rateOrder orders ratings users orderId raterId score comment).2 = none ∧
      (rateOrder orders ratings users orderId raterId score comment).1.1 =
        ratings ++ [⟨orderId, raterId, rated, score, comment, rtype⟩] ∧
      (∀ u ∈ (rateOrder orders ratings users orderId raterId score comment).1.2,
        u.id = rated →
          u.avgRating = ratingsAvg
            (ratings ++ [⟨orderId, raterId, rated, score, comment, rtype⟩])
            rated ∧
          u.totalRatings = (List.filter (fun x => x.ratedUserId == rated)
            (ratings ++ [⟨orderId, raterId, rated, score, comment,
              rtype⟩])).length)) := by
  have hro : rateOrder orders ratings users orderId raterId score comment =
      rateInsert ratings users orderId raterId rated score comment rtype := by
    rcases hparty with ⟨hcust, hdl, hrt⟩ | ⟨hcust, hdrv, hrated, hrt⟩
    · rw [hrt]
      simp [rateOrder, hfind, hst, hcust, hdl]
    · rw [hrt, hrated]
      simp [rateOrder, hfind, hst, hcust, hdrv]
  rw [hro]
  constructor
  · intro hdup
    simp only [rateInsert, hdup, if_true]
  · intro hdup
    simp only [rateInsert, hdup, Bool.false_eq_true, if_false]
    refine ⟨trivial, trivial, ?_⟩
    intro u hu hid
    rw [List.mem_map] at hu
    obtain ⟨u0, hu0, rfl⟩ := hu
    by_cases h0 : u0.id == rated
    · simp [h0]
    · simp only [h0, Bool.false_eq_true, if_false] at hid ⊢
      exact absurd hid (by simpa using h0)

/-- C5 (witness): concrete instance of the deliverer-rates-customer
branch — the second rating of order `o1` by deliverer `d1` of customer
`c1` is rejected with the already-rated conflict and the tables are
unchanged. -/
theorem C5_rating_unique_witness :
    rateOrder [⟨"o1", "c1", some "d1", "delivered"⟩]
      [⟨"o1", "d1", "c1", 5, none, "deliverer_to_customer"⟩]
      [⟨"c1", 5, 1⟩] "o1" "d1" 4 none =
      ((([⟨"o1", "d1", "c1", 5, none, "deliverer_to_customer"⟩] : List RatingRow),
        ([⟨"c1", 5, 1⟩] : List PgUser)), some RateErr.alreadyRated) :=
  (C5_rating_unique_and_recomputed [⟨"o1", "c1", some "d1", "delivered"⟩]
    [⟨"o1", "d1", "c1", 5, none, "deliverer_to_customer"⟩]
    [⟨"c1", 5, 1⟩] "o1" "d1" "c1" "deliverer_to_customer" 4 none
    ⟨"o1", "c1", some "d1", "delivered"⟩
    (by decide) rfl (Or.inr ⟨by decide, rfl, rfl, rfl⟩)).1 (by decide)

/-- C5 (counterexample): the Prisma `POST /rate` route accepts a second
rating by the same rater for the same party on the same order — both
calls succeed and two rows for the `(order, rater, ratee)` triple exist
afterwards, where the claim demands a ConflictError on the second call. -/
theorem C5_duplicate_rating_counterexample :
    ((rateDirect
        (rateDirect [] [⟨"d9", 5⟩] "u1" "d9" 5 none (some "o1") none).1
        (rateDirect [] [⟨"d9", 5⟩] "u1" "d9" 5 none (some "o1") none).2
        "u1" "d9" 1 none (some "o1") none).1.filter
      (fun x => x.orderId == some "o1" && x.raterId == "u1" &&
        x.rateeId == "d9")).length = 2 := by
  decide

/-! ## C6 — available listings -/

/-- Membership in an ascending insertion. -/
theorem mem_insertRideAsc {a r : Ride} {l : List Ride} :
    a ∈ insertRideAsc r l ↔ a = r ∨ a ∈ l := by
  induction l with
  | nil => simp [insertRideAsc]
  | cons x xs ih =>
    simp only [insertRideAsc]
    split
    · simp
    · simp [ih]
      tauto

/-- Membership is preserved by the ascending sort. -/
theorem mem_sortRidesAsc {a : Ride} {l : List Ride} :
    a ∈ sortRidesAsc l ↔ a ∈ l := by
  induction l with
  | nil => simp [sortRidesAsc]
  | cons x xs ih => simp [sortRidesAsc, mem_insertRideAsc, ih]

/-- Length is preserved by the ascending insertion. -/
theorem length_insertRideAsc (r : Ride) (l : List Ride) :
    (insertRideAsc r l).length = l.length + 1 := by
  induction l with
  | nil => rfl
  | cons x xs ih =>
    simp only [insertRideAsc]
    split
    · rfl
    · simp [ih]

/-- Length is preserved by the ascending sort. -/
theorem length_sortRidesAsc (l : List Ride) :
    (sortRidesAsc l).length = l.length := by
  induction l with
  | nil => rfl
  | cons x xs ih => simp [sortRidesAsc, length_insertRideAsc, ih]

/-- Inserting into an ascending list keeps it ascending. -/
theorem pairwise_insertRideAsc {r : Ride} {l : List Ride}
    (h : l.Pairwise (fun a b => a.createdAt ≤ b.createdAt)) :
    (insertRideAsc r l).Pairwise (fun a b => a.createdAt ≤ b.createdAt) := by
  induction l with
  | nil => simp [insertRideAsc]
  | cons x xs ih =>
    rw [List.pairwise_cons] at h
    simp only [insertRideAsc]
    split
    · rename_i hlt
      rw [List.pairwise_cons]
      constructor
      · intro b hb
        rcases List.mem_cons.mp hb with rfl | hb
        · omega
        · exact le_trans (Nat.le_of_lt hlt) (h.1 b hb)
      · rw [List.pairwise_cons]
        exact h
    · rename_i hge
      rw [List.pairwise_cons]
      refine ⟨?_, ih h.2⟩
      intro b hb
      rcases mem_insertRideAsc.mp hb with rfl | hb
      · omega
      · exact h.1 b hb

/-- The ascending sort produces an ascending list. -/
theorem pairwise_sortRidesAsc (l : List Ride) :
    (sortRidesAsc l).Pairwise (fun a b => a.createdAt ≤ b.createdAt) := by
  induction l with
  | nil => simp [sortRidesAsc]
  | cons x xs ih => exact pairwise_insertRideAsc ih

/-- Membership in a descending insertion of orders. -/
theorem mem_insertOrderDesc {a o : POrder} {l : List POrder} :
    a ∈ insertOrderDesc o l ↔ a = o ∨ a ∈ l := by
  induction l with
  | nil => simp [insertOrderDesc]
  | cons x xs ih =>
    simp only [insertOrderDesc]
    split
    · simp
    · simp [ih]
      tauto

/-- Membership is preserved by the descending sort of orders. -/
theorem mem_sortOrdersDesc {a : POrder} {l : List POrder} :
    a ∈ sortOrdersDesc l ↔ a ∈ l := by
  induction l with
  | nil => simp [sortOrdersDesc]
  | cons x xs ih => simp [sortOrdersDesc, mem_insertOrderDesc, ih]

/-- Inserting into a descending list keeps it descending. -/
theorem pairwise_insertOrderDesc {o : POrder} {l : List POrder}
    (h : l.Pairwise (fun a b => b.createdAt ≤ a.createdAt)) :
    (insertOrderDesc o l).Pairwise (fun a b => b.createdAt ≤ a.createdAt) := by
  induction l with
  | nil => simp [insertOrderDesc]
  | cons x xs ih =>
    rw [List.pairwise_cons] at h
    simp only [insertOrderDesc]
    split
    · rename_i hgt
      rw [List.pairwise_cons]
      constructor
      · intro b hb
        rcases List.mem_cons.mp hb with rfl | hb
        · omega
        · exact le_trans (h.1 b hb) (Nat.le_of_lt hgt)
      · rw [List.pairwise_cons]
        exact h
    · rename_i hle
      rw [List.pairwise_cons]
      refine ⟨?_, ih h.2⟩
      intro b hb
      rcases mem_insertOrderDesc.mp hb with rfl | hb
      · omega
      · exact h.1 b hb

/-- The descending sort produces a descending list. -/
theorem pairwise_sortOrdersDesc (l : List POrder) :
    (sortOrdersDesc l).Pairwise (fun a b => b.createdAt ≤ a.createdAt) := by
  induction l with
  | nil => simp [sortOrdersDesc]
  | cons x xs ih => exact pairwise_insertOrderDesc ih

/-- C6 (amended): the rides `GET /available` returns only `pending` rides
of other riders, oldest first, capped at 20 rows, each annotated with the
urgency tier derived from its wait time (strictly more than 10 minutes →
`high`, more than 5 → `medium`, else `low`); when at most 20 rides
qualify, every qualifying ride is listed.  The orders `GET /available`,
in contrast, returns *all* `PENDING` orders — including the caller's own
— newest first and with no urgency annotation. -/
theorem C6_available_listings (rides : List Ride) (driverId : String)
    (now : Nat) (orders : List POrder) :
    (∀ a ∈ ridesAvailable rides driverId now,
      a.ride ∈ rides ∧ a.ride.status = "pending" ∧
      a.ride.riderId ≠ driverId ∧
      a.urgency = urgencyOf (now - a.ride.createdAt)) ∧
    ((ridesAvailable rides driverId now).Pairwise
      (fun a b => a.ride.createdAt ≤ b.ride.createdAt)) ∧
    (ridesAvailable rides driverId now).length ≤ 20 ∧
    ((rides.filter
        (fun r => r.status == "pending" && r.riderId != driverId)).length ≤ 20 →
      ∀ r ∈ rides, r.status = "pending" → r.riderId ≠ driverId →
        ∃ a ∈ ridesAvailable rides driverId now, a.ride = r) ∧
    (∀ o, o ∈ ordersAvailable orders ↔ o ∈ orders ∧ o.status = "PENDING") ∧
    ((ordersAvailable orders).Pairwise
      (fun a b => b.createdAt ≤ a.createdAt)) := by
  refine ⟨?_, ?_, ?_, ?_, ?_, ?_⟩
  · intro a ha
    rw [ridesAvailable, List.mem_map] at ha
    obtain ⟨r0, hr0, rfl⟩ := ha
    have hmem := mem_sortRidesAsc.mp (List.mem_of_mem_take hr0)
    rw [List.mem_filter] at hmem
    have hp := hmem.2
    simp only [Bool.and_eq_true, beq_iff_eq, bne_iff_ne] at hp
    exact ⟨hmem.1, hp.1, hp.2, rfl⟩
  · rw [ridesAvailable, List.pairwise_map]
    exact (pairwise_sortRidesAsc _).sublist (List.take_sublist _ _)
  · rw [ridesAvailable, List.length_map]
    exact List.length_take_le _ _
  · intro hlen r hr hst hrid
    have hfull : (sortRidesAsc (rides.filter
        (fun r => r.status == "pending" && r.riderId != driverId))).take 20 =
        sortRidesAsc (rides.filter
          (fun r => r.status == "pending" && r.riderId != driverId)) :=
      List.take_of_length_le (by rw [length_sortRidesAsc]; exact hlen)
    refine ⟨⟨r, urgencyOf (now - r.createdAt)⟩, ?_, rfl⟩
    rw [ridesAvailable, hfull, List.mem_map]
    refine ⟨r, ?_, rfl⟩
    rw [mem_sortRidesAsc, List.mem_filter]
    simp only [Bool.and_eq_true, beq_iff_eq, bne_iff_ne]
    exact ⟨hr, hst, hrid⟩
  · intro o
    rw [ordersAvailable, mem_sortOrdersDesc, List.mem_filter]
    simp only [beq_iff_eq]
  · exact pairwise_sortOrdersDesc _

/-- C6 (witness): concrete instance — with one fresh pending ride of
another rider, the rides listing returns exactly that ride at `low`
urgency. -/
theorem C6_available_listings_witness :
    ∀ a ∈ ridesAvailable
        [⟨"r1", "u1", none, "pending", "a", "b", 1, none, 5, none, 0, 0, none,
           none, 60000, none, none, none⟩] "d1" 120000,
      a.ride ∈ [⟨"r1", "u1", none, "pending", "a", "b", 1, none, 5, none, 0, 0,
          none, none, 60000, none, none, none⟩] ∧
      a.ride.status = "pending" ∧ a.ride.riderId ≠ "d1" ∧
      a.urgency = urgencyOf (120000 - a.ride.createdAt) :=
  (C6_available_listings
    [⟨"r1", "u1", none, "pending", "a", "b", 1, none, 5, none, 0, 0, none,
       none, 60000, none, none, none⟩] "d1" 120000 []).1

/-- C6 (counterexample): the orders `GET /available` violates the claim
on both counts it can be tested on: serving caller `u1`, it returns the
caller's *own* pending orders (no owner exclusion), and sorts them
newest-first instead of oldest-first.  (It also attaches no urgency tier:
the response rows are bare orders.) -/
theorem C6_orders_available_counterexample :
    ordersAvailable
        [⟨"o1", "u1", none, "PENDING", "R", "P", "B", none, none, none, 1,
           none, none⟩,
         ⟨"o2", "u1", none, "PENDING", "R", "P", "B", none, none, none, 2,
           none, none⟩] =
      [⟨"o2", "u1", none, "PENDING", "R", "P", "B", none, none, none, 2,
         none, none⟩,
       ⟨"o1", "u1", none, "PENDING", "R", "P", "B", none, none, none, 1,
         none, none⟩] ∧
    (⟨"o1", "u1", none, "PENDING", "R", "P", "B", none, none, none, 1,
       none, none⟩ : POrder).customerId = "u1" := by
  decide

/-! ## C7 — subscribe-time authorization -/

/-- C7 (confirmed): for an authenticated connection and a (nonempty)
order/ride identifier whose order/ride the user is neither requester nor
assignee of — including identifiers matching no row at all — both
subscribe handlers emit exactly the authorization error event and leave
the socket's topic memberships unchanged. -/
theorem C7_subscribe_requires_party
    (orders : List PgOrder) (rides : List Ride) (sock : SocketCtx)
    (uid oid rid : String)
    (huser : sock.userId = some uid) (hoid : oid ≠ "") (hrid : rid ≠ "")
    (hno : ∀ o ∈ orders, o.id = oid →
      o.customerId ≠ uid ∧ o.delivererId ≠ some uid)
    (hnr : ∀ r ∈ rides, r.id = rid →
      r.riderId ≠ uid ∧ r.driverId ≠ some uid) :
    subscribeOrder orders sock oid =
      (sock, [.errorMsg "Not authorized to view this order"]) ∧
    subscribeRide rides sock rid =
      (sock, [.errorMsg "Not authorized to view this ride"]) := by
  have h1 : (orders.any fun o =>
      o.id == oid && (o.customerId == uid || o.delivererId == some uid)) = false := by
    rw [List.any_eq_false]
    intro o ho
    simp only [Bool.and_eq_true, Bool.or_eq_true, beq_iff_eq, not_and, not_or]
    intro hid
    exact (hno o ho hid).imp id id
  have h2 : (rides.any fun r =>
      r.id == rid && (r.riderId == uid || r.driverId == some uid)) = false := by
    rw [List.any_eq_false]
    intro r hr
    simp only [Bool.and_eq_true, Bool.or_eq_true, beq_iff_eq, not_and, not_or]
    intro hid
    exact (hnr r hr hid).imp id id
  rw [subscribeOrder, subscribeRide, if_neg hoid, if_neg hrid, huser]
  simp [h1, h2]

/-- C7 (witness): concrete instance — an authenticated stranger
subscribing to an order they are not a party to gets the error event and
joins nothing. -/
theorem C7_subscribe_requires_party_witness :
    subscribeOrder [⟨"o1", "c1", some "d1", "accepted"⟩]
      ⟨some "intruder", []⟩ "o1" =
      (⟨some "intruder", []⟩, [.errorMsg "Not authorized to view this order"]) :=
  (C7_subscribe_requires_party [⟨"o1", "c1", some "d1", "accepted"⟩] []
    ⟨some "intruder", []⟩ "intruder" "o1" "r1" rfl (by decide) (by decide)
    (by decide) (by decide)).1

/-! ## C10 — unauthenticated subscribe is silently dropped -/

/-- C10 (confirmed): a subscribe request on a connection with no
authenticated user is silently dropped by both handlers: no topic is
joined, no reply and no error event is emitted — for every identifier,
empty or not. -/
theorem C10_unauthenticated_subscribe_silent
    (orders : List PgOrder) (rides : List Ride) (sock : SocketCtx)
    (orderId rideId : String) (h : sock.userId = none) :
    subscribeOrder orders sock orderId = (sock, []) ∧
    subscribeRide rides sock rideId = (sock, []) := by
  rw [subscribeOrder, subscribeRide, h]
  constructor
  · split <;> rfl
  · split <;> rfl

/-- C10 (witness): concrete instance — an anonymous connection gets no
reply and no membership for an order it names. -/
theorem C10_unauthenticated_subscribe_silent_witness :
    subscribeOrder [⟨"o1", "c1", some "d1", "accepted"⟩] ⟨none, []⟩ "o1" =
      (⟨none, []⟩, []) :=
  (C10_unauthenticated_subscribe_silent [⟨"o1", "c1", some "d1", "accepted"⟩]
    [] ⟨none, []⟩ "o1" "r1" rfl).1

/-! ## C9 — tracking reads require a party -/

/-- C9 (confirmed): for every caller who is neither customer nor
deliverer of the named order, both the latest-location and the
location-history queries answer with the 403 authorization rejection —
which carries no location data — and never with an empty result set. -/
theorem C9_tracking_requires_party
    (orders : List PgOrder) (locs : List LocationUpdate)
    (userId orderId : String) (limit : Nat)
    (h : ∀ o ∈ orders, o.id = orderId →
      o.customerId ≠ userId ∧ o.delivererId ≠ some userId) :
    getLatestLocation orders locs userId orderId =
      .forbidden "Not authorized to view this order" ∧
    getLocationHistory orders locs userId orderId limit =
      .forbidden "Not authorized to view this order" := by
  have hfind : findAuthorizedOrder orders orderId userId = none := by
    rw [findAuthorizedOrder, List.find?_eq_none]
    intro o ho
    simp only [Bool.and_eq_true, Bool.or_eq_true, beq_iff_eq, not_and, not_or]
    intro hid
    exact (h o ho hid).imp id id
  rw [getLatestLocation, getLocationHistory, hfind]
  exact ⟨rfl, rfl⟩

/-- C9 (witness): concrete instance — a stranger asking for the latest
location of an order between two other users is rejected with the 403
error. -/
theorem C9_tracking_requires_party_witness :
    getLatestLocation [⟨"o1", "c1", some "d1", "picked_up"⟩]
      [⟨"o1", "d1", 1, 2, none, 5⟩] "intruder" "o1" =
      .forbidden "Not authorized to view this order" :=
  (C9_tracking_requires_party [⟨"o1", "c1", some "d1", "picked_up"⟩]
    [⟨"o1", "d1", 1, 2, none, 5⟩] "intruder" "o1" 50 (by decide)).1

/-! ## C8 — lifecycle timestamps -/

/-- C8 (amended): for rides, the timestamp/status relation `rideTsInv`
(which a fresh `pending` ride satisfies) is preserved by every router
operation, and under it every lifecycle timestamp (`accepted_at`,
`started_at`, `completed_at`), once set, is never overwritten by any
operation — each is written only by the one guarded transition whose
predecessor check can no longer succeed afterwards.  The order-variant
status route has no such protection: it rewrites `pickedUpAt` /
`deliveredAt` on every matching post (see the counterexample). -/
theorem C8_ride_timestamps_write_once (r : Ride) (op : RideOp)
    (h : rideTsInv r) :
    rideTsInv (rideStep r op) ∧
    (∀ t, r.acceptedAt = some t → (rideStep r op).acceptedAt = some t) ∧
    (∀ t, r.startedAt = some t → (rideStep r op).startedAt = some t) ∧
    (∀ t, r.completedAt = some t → (rideStep r op).completedAt = some t) := by
  obtain ⟨h1, h2, h3⟩ := h
  cases op with
  | accept d now =>
    by_cases hp : r.status = "pending"
    · have ha : r.acceptedAt = none := by
        cases hat : r.acceptedAt with
        | none => rfl
        | some t => exact absurd hp (h1 (by simp [hat]))
      have hs : r.startedAt = none := by
        cases hx : r.startedAt with
        | none => rfl
        | some t =>
          have := h2 (by simp [hx])
          simp [hp] at this
      have hc : r.completedAt = none := by
        cases hx : r.completedAt with
        | none => rfl
        | some t =>
          have := h3 (by simp [hx])
          simp [hp] at this
      have hrw : rideStep r (.accept d now) =
          { r with driverId := some d, status := "accepted",
                   acceptedAt := some now } := by
        simp [rideStep, rideAcceptTx, hp]
      rw [hrw]
      refine ⟨⟨by simp, by simp [hs], by simp [hc]⟩, ?_, ?_, ?_⟩
      · intro t ht
        rw [ha] at ht
        cases ht
      · intro t ht
        simpa using ht
      · intro t ht
        simpa using ht
    · have hrw : rideStep r (.accept d now) = r := by
        simp [rideStep, rideAcceptTx, hp]
      rw [hrw]
      exact ⟨⟨h1, h2, h3⟩, fun t ht => ht, fun t ht => ht, fun t ht => ht⟩
  | arriving d =>
    by_cases hd : r.driverId = some d
    · by_cases hacc : r.status = "accepted"
      · have hs : r.startedAt = none := by
          cases hx : r.startedAt with
          | none => rfl
          | some t =>
            have := h2 (by simp [hx])
            simp [hacc] at this
        have hc : r.completedAt = none := by
          cases hx : r.completedAt with
          | none => rfl
          | some t =>
            have := h3 (by simp [hx])
            simp [hacc] at this
        have hrw : rideStep r (.arriving d) = { r with status := "arriving" } := by
          simp [rideStep, rideArriving, hd, hacc]
        rw [hrw]
        refine ⟨⟨by simp, by simp [hs], by simp [hc]⟩, ?_, ?_, ?_⟩
        · intro t ht
          simpa using ht
        · intro t ht
          simpa using ht
        · intro t ht
          simpa using ht
      · have hrw : rideStep r (.arriving d) = r := by
          simp [rideStep, rideArriving, hd, hacc]
        rw [hrw]
        exact ⟨⟨h1, h2, h3⟩, fun t ht => ht, fun t ht => ht, fun t ht => ht⟩
    · have hrw : rideStep r (.arriving d) = r := by
        simp [rideStep, rideArriving, hd]
      rw [hrw]
      exact ⟨⟨h1, h2, h3⟩, fun t ht => ht, fun t ht => ht, fun t ht => ht⟩
  | start d now =>
    by_cases hd : r.driverId = some d
    · by_cases hst : r.status = "accepted" ∨ r.status = "arriving"
      · have hs : r.startedAt = none := by
          cases hx : r.startedAt with
          | none => rfl
          | some t =>
            have := h2 (by simp [hx])
            rcases hst with hp | hp <;> simp [hp] at this
        have hc : r.completedAt = none := by
          cases hx : r.completedAt with
          | none => rfl
          | some t =>
            have := h3 (by simp [hx])
            rcases hst with hp | hp <;> simp [hp] at this
        have hrw : rideStep r (.start d now) =
            { r with status := "in_progress", startedAt := some now } := by
          simp [rideStep, rideStart, hd, hst]
        rw [hrw]
        refine ⟨⟨by simp, by simp, by simp [hc]⟩, ?_, ?_, ?_⟩
        · intro t ht
          simpa using ht
        · intro t ht
          rw [hs] at ht
          cases ht
        · intro t ht
          simpa using ht
      · have hrw : rideStep r (.start d now) = r := by
          simp [rideStep, rideStart, hd, hst]
        rw [hrw]
        exact ⟨⟨h1, h2, h3⟩, fun t ht => ht, fun t ht => ht, fun t ht => ht⟩
    · have hrw : rideStep r (.start d now) = r := by
        simp [rideStep, rideStart, hd]
      rw [hrw]
      exact ⟨⟨h1, h2, h3⟩, fun t ht => ht, fun t ht => ht, fun t ht => ht⟩
  | complete d now =>
    by_cases hd : r.driverId = some d
    · by_cases hip : r.status = "in_progress"
      · have hc : r.completedAt = none := by
          cases hx : r.completedAt with
          | none => rfl
          | some t =>
            have := h3 (by simp [hx])
            simp [hip] at this
        have hrw : rideStep r (.complete d now) =
            { r with status := "completed", completedAt := some now,
                     actualDurationMinutes := some (completionDuration r now) } := by
          simp [rideStep, rideComplete, hd, hip]
        rw [hrw]
        refine ⟨⟨by simp, by simp, by simp⟩, ?_, ?_, ?_⟩
        · intro t ht
          simpa using ht
        · intro t ht
          simpa using ht
        · intro t ht
          rw [hc] at ht
          cases ht
      · have hrw : rideStep r (.complete d now) = r := by
          simp [rideStep, rideComplete, hd, hip]
        rw [hrw]
        exact ⟨⟨h1, h2, h3⟩, fun t ht => ht, fun t ht => ht, fun t ht => ht⟩
    · have hrw : rideStep r (.complete d now) = r := by
        simp [rideStep, rideComplete, hd]
      rw [hrw]
      exact ⟨⟨h1, h2, h3⟩, fun t ht => ht, fun t ht => ht, fun t ht => ht⟩
  | cancel u reason =>
    by_cases hparty : r.riderId ≠ u ∧ r.driverId ≠ some u
    · have hrw : rideStep r (.cancel u reason) = r := by
        simp [rideStep, rideCancel, hparty.1, hparty.2]
      rw [hrw]
      exact ⟨⟨h1, h2, h3⟩, fun t ht => ht, fun t ht => ht, fun t ht => ht⟩
    · by_cases hterm : r.status = "completed" ∨ r.status = "cancelled"
      · have hrw : rideStep r (.cancel u reason) = r := by
          simp [rideStep, rideCancel, hparty, hterm]
        rw [hrw]
        exact ⟨⟨h1, h2, h3⟩, fun t ht => ht, fun t ht => ht, fun t ht => ht⟩
      · have hc : r.completedAt = none := by
          cases hx : r.completedAt with
          | none => rfl
          | some t => exact absurd (Or.inl (h3 (by simp [hx]))) hterm
        have hrw : rideStep r (.cancel u reason) =
            { r with status := "cancelled",
                     cancelledReason := some (reason.getD "No reason provided"),
                     cancelledBy := some u } := by
          simp [rideStep, rideCancel, hparty, hterm]
        rw [hrw]
        refine ⟨⟨by simp, by simp, by simp [hc]⟩, ?_, ?_, ?_⟩
        · intro t ht
          simpa using ht
        · intro t ht
          simpa using ht
        · intro t ht
          rw [hc] at ht
          cases ht

/-- C8 (witness): concrete instance — starting an accepted ride preserves
the invariant and its `accepted_at` timestamp. -/
theorem C8_ride_timestamps_write_once_witness :
    (rideStep
        ⟨"r1", "u1", some "d1", "accepted", "a", "b", 1, none, 5, none, 0, 0,
          none, none, 0, some 7, none, none⟩ (.start "d1" 9)).acceptedAt = some 7 :=
  (C8_ride_timestamps_write_once
    ⟨"r1", "u1", some "d1", "accepted", "a", "b", 1, none, 5, none, 0, 0,
      none, none, 0, some 7, none, none⟩ (.start "d1" 9) (by
        refine ⟨?_, ?_, ?_⟩ <;> simp [rideTsInv])).2.1 7 rfl

/-- C8 (counterexample): the order-variant status route overwrites an
already-set lifecycle timestamp: posting `PICKED_UP` twice (at times 1000
then 2000) leaves `pickedUpAt = 2000`, clobbering the first value — the
claim requires each timestamp to be set exactly once and never
overwritten. -/
theorem C8_timestamp_overwrite_counterexample :
    (orderStatusHandler
        (orderStatusHandler
          ⟨"o1", "c1", some "d1", "ACCEPTED", "R", "P", "B", none, none, none,
            0, none, none⟩ "d1" "PICKED_UP" 1000)
        "d1" "PICKED_UP" 2000).pickedUpAt = some 2000 ∧
    (orderStatusHandler
        ⟨"o1", "c1", some "d1", "ACCEPTED", "R", "P", "B", none, none, none,
          0, none, none⟩ "d1" "PICKED_UP" 1000).pickedUpAt = some 1000 := by
  decide
